import Mathlib

/- Verification of the py_depthsampling core against its specification.

The Python sources are shallowly embedded over exact rationals: numpy
arrays become nested lists of rationals, and the numerically relevant
numpy primitives (median, percentile with linear interpolation, linspace,
elementwise comparison) are modelled as Lean functions.  Floating point
rounding is abstracted away; every claim treated here concerns the
algebraic structure of the computations, not rounding behaviour. -/

/- Helper: read entry [i][j] of a two-dimensional array (0 outside). -/
def get2 (a : List (List ℚ)) (i j : ℕ) : ℚ := (a.getD i []).getD j 0

/- Helper: read entry [i][j][k] of a three-dimensional array (0 outside). -/
def get3 (a : List (List (List ℚ))) (i j k : ℕ) : ℚ :=
  ((a.getD i []).getD j []).getD k 0

/- ------------------------------------------------------------------
py_depthsampling/drain_model/drain_model_decon_04.py

The mixing-coefficient table of the Markuerkiaga et al. (2016) draining
model, as hard-coded in deconv_04: entry (idxTrg, idxSrc) is the ratio
applied to the corrected value of the deeper layer idxSrc when correcting
the shallower layer idxTrg (depth index 0 = layer VI, 4 = layer I). -/
def lstRat (idxTrg idxSrc : ℕ) : ℚ :=
  match idxTrg, idxSrc with
  | 1, 0 => 0.6 / 1.9
  | 2, 0 => 0.6 / 1.9
  | 2, 1 => 0.3 / 1.5
  | 3, 0 => 0.5 / 1.9
  | 3, 1 => 0.3 / 1.5
  | 3, 2 => 1.3 / 2.2
  | 4, 0 => 0.5 / 1.9
  | 4, 1 => 0.3 / 1.5
  | 4, 2 => 1.3 / 2.2
  | 4, 3 => 0.7 / 1.7
  | _, _ => 0

/- Body of deconv_04 for a single iteration and condition: emp holds the
observed profile at the 5 depth levels, nse the noise slice
aryNseRnd[idxIt, idxCon, :].  Mirrors lines 76-113 of
drain_model_decon_04.py, with the literal coefficients of the source. -/
def deconvLayers (emp nse : List ℚ) : List ℚ :=
  let e := fun d => emp.getD d 0
  let w := fun d => nse.getD d 0
  let n0 := e 0
  let n1 := e 1 - 0.6 / 1.9 * n0 * w 1
  let n2 := e 2 - 0.3 / 1.5 * n1 * w 2 - 0.6 / 1.9 * n0 * w 2
  let n3 := e 3 - 1.3 / 2.2 * n2 * w 3 - 0.3 / 1.5 * n1 * w 3
    - 0.5 / 1.9 * n0 * w 3
  let n4 := e 4 - 0.7 / 1.7 * n3 * w 4 - 1.3 / 2.2 * n2 * w 4
    - 0.3 / 1.5 * n1 * w 4 - 0.5 / 1.9 * n0 * w 4
  [n0, n1, n2, n3, n4]

/- deconv_04(varNumCon, aryEmp5, aryNseRnd): model-4 deconvolution.
aryEmp5[idxCon][idxDpth] are the observed profiles, aryNseRnd[idxIt]
[idxCon][idxDpth] the noise factors; the result has the iteration axis
first, of length aryNseRnd.shape[0] (line 71/74 of the source).  The
Python broadcast assignments per depth level become, per iteration and
condition, the sequential back-substitution deconvLayers. -/
def deconv_04 (aryEmp5 : List (List ℚ)) (aryNseRnd : List (List (List ℚ))) :
    List (List (List ℚ)) :=
  aryNseRnd.map fun nseIt =>
    (List.range aryEmp5.length).map fun idxCon =>
      deconvLayers (aryEmp5.getD idxCon []) (nseIt.getD idxCon [])

/- Noise generation for model 4, drain_model_Huber2017.py lines 249-254:
standard-normal draws aryRndn are scaled by varNseRndSd and centred at
one.  The random draws themselves are a parameter of the embedding. -/
def aryNseRnd (varNseRndSd : ℚ) (aryRndn : List (List (List ℚ))) :
    List (List (List ℚ)) :=
  aryRndn.map fun itSlice =>
    itSlice.map fun conSlice =>
      conSlice.map fun x => x * varNseRndSd + 1

lemma getD_map_lt {α β : Type} (f : α → β) (l : List α) (dA : α) (dB : β)
    (i : ℕ) (h : i < l.length) : (l.map f).getD i dB = f (l.getD i dA) := by
  rw [List.getD_eq_getElem (l.map f) dB (by simpa using h)]
  rw [List.getElem_map]
  rw [List.getD_eq_getElem l dA h]

lemma range_getD_lt (n i : ℕ) (h : i < n) : (List.range n).getD i 0 = i := by
  rw [List.getD_eq_getElem _ _ (by simpa using h)]
  simp

lemma deconv_04_getD (aryEmp5 : List (List ℚ))
    (aryNseRnd : List (List (List ℚ))) (it con : ℕ)
    (hit : it < aryNseRnd.length) (hcon : con < aryEmp5.length) :
    ((deconv_04 aryEmp5 aryNseRnd).getD it []).getD con [] =
      deconvLayers (aryEmp5.getD con []) ((aryNseRnd.getD it []).getD con []) := by
  unfold deconv_04
  rw [getD_map_lt _ aryNseRnd [] [] it hit]
  have hcon2 : con < (List.range aryEmp5.length).length := by simpa using hcon
  rw [getD_map_lt _ (List.range aryEmp5.length) 0 [] con (by simpa using hcon)]
  rw [range_getD_lt aryEmp5.length con hcon]

/- The corrected value at depth d is the observed value minus, for every
deeper depth s < d, the table ratio times the already-corrected value at
s times the noise factor at the target depth d. -/
set_option maxHeartbeats 1000000 in
lemma deconv_04_recurrence (aryEmp5 : List (List ℚ))
    (aryNseRnd : List (List (List ℚ))) (it con d : ℕ)
    (hit : it < aryNseRnd.length) (hcon : con < aryEmp5.length) (hd : d < 5) :
    get3 (deconv_04 aryEmp5 aryNseRnd) it con d =
      get2 aryEmp5 con d -
        ∑ s ∈ Finset.range d,
          lstRat d s * get3 (deconv_04 aryEmp5 aryNseRnd) it con s *
            get3 aryNseRnd it con d := by
  have hg : ∀ k : ℕ, get3 (deconv_04 aryEmp5 aryNseRnd) it con k =
      (deconvLayers (aryEmp5.getD con [])
        ((aryNseRnd.getD it []).getD con [])).getD k 0 := by
    intro k
    unfold get3
    rw [deconv_04_getD aryEmp5 aryNseRnd it con hit hcon]
  interval_cases d <;>
    simp only [hg, Finset.sum_range_succ, Finset.range_zero, Finset.sum_empty] <;>
    simp only [deconvLayers, get2, get3, List.getD_cons_zero, List.getD_cons_succ] <;>
    (try simp only [lstRat]) <;>
    ring

/- The value deconvLayers yields at depth d only reads emp and nse at
depth indices at most d. -/
lemma deconvLayers_locality (emp nse empB nseB : List ℚ) (d : ℕ)
    (hd : d < 5)
    (he : ∀ s : ℕ, s ≤ d → empB.getD s 0 = emp.getD s 0)
    (hw : ∀ s : ℕ, s ≤ d → nseB.getD s 0 = nse.getD s 0) :
    (deconvLayers empB nseB).getD d 0 = (deconvLayers emp nse).getD d 0 := by
  interval_cases d
  · simp only [deconvLayers, List.getD_cons_zero]
    rw [he 0 (by omega)]
  · simp only [deconvLayers, List.getD_cons_succ, List.getD_cons_zero]
    rw [he 0 (by omega), he 1 (by omega), hw 1 (by omega)]
  · simp only [deconvLayers, List.getD_cons_succ, List.getD_cons_zero]
    rw [he 0 (by omega), he 1 (by omega), he 2 (by omega), hw 1 (by omega),
      hw 2 (by omega)]
  · simp only [deconvLayers, List.getD_cons_succ, List.getD_cons_zero]
    rw [he 0 (by omega), he 1 (by omega), he 2 (by omega), he 3 (by omega),
      hw 1 (by omega), hw 2 (by omega), hw 3 (by omega)]
  · simp only [deconvLayers, List.getD_cons_succ, List.getD_cons_zero]
    rw [he 0 (by omega), he 1 (by omega), he 2 (by omega), he 3 (by omega),
      he 4 (by omega), hw 1 (by omega), hw 2 (by omega), hw 3 (by omega),
      hw 4 (by omega)]

/-- C1 (counterexample): as frozen, the claim asserts that a corrected layer
equals the observed value minus the table ratio times the corrected deeper
value, with no further factor.  deconv_04 additionally multiplies every
subtraction term by the noise factor at the target depth, so the claimed
equation fails at a concrete input with noise factor 2 at depth 1. -/
theorem claim_C1_counterexample :
    ¬ (get3 (deconv_04 [[1, 1, 1, 1, 1]] [[[1, 2, 1, 1, 1]]]) 0 0 1 =
        get2 [[1, 1, 1, 1, 1]] 0 1 -
          lstRat 1 0 *
            get3 (deconv_04 [[1, 1, 1, 1, 1]] [[[1, 2, 1, 1, 1]]]) 0 0 0) := by
  norm_num [deconv_04, deconvLayers, get2, get3, lstRat, List.range_succ]

/-- C1 (amended): deconv_04 computes corrected layers by back-substitution in
strict deep-to-superficial order: each corrected value equals the observed
value minus, for every deeper layer already corrected, the table ratio times
that corrected deeper value times the noise factor of the current iteration at
the target depth; and no layer reads any shallower value: the output at depth
d is unchanged under any modification of the inputs at depths above d. -/
theorem claim_C1_deconv_backsubstitution (aryEmp5 : List (List ℚ))
    (aryNseRnd : List (List (List ℚ))) (it con d : ℕ)
    (hit : it < aryNseRnd.length) (hcon : con < aryEmp5.length) (hd : d < 5) :
    get3 (deconv_04 aryEmp5 aryNseRnd) it con d =
      get2 aryEmp5 con d -
        ∑ s ∈ Finset.range d,
          lstRat d s * get3 (deconv_04 aryEmp5 aryNseRnd) it con s *
            get3 aryNseRnd it con d
    ∧ ∀ (aryEmp5B : List (List ℚ)) (aryNseRndB : List (List (List ℚ)))
        (itB conB : ℕ), itB < aryNseRndB.length → conB < aryEmp5B.length →
        (∀ s : ℕ, s ≤ d → get2 aryEmp5B conB s = get2 aryEmp5 con s) →
        (∀ s : ℕ, s ≤ d → get3 aryNseRndB itB conB s = get3 aryNseRnd it con s) →
        get3 (deconv_04 aryEmp5B aryNseRndB) itB conB d =
          get3 (deconv_04 aryEmp5 aryNseRnd) it con d := by
  constructor
  · exact deconv_04_recurrence aryEmp5 aryNseRnd it con d hit hcon hd
  · intro aryEmp5B aryNseRndB itB conB hitB hconB he hw
    unfold get3
    rw [deconv_04_getD aryEmp5 aryNseRnd it con hit hcon,
      deconv_04_getD aryEmp5B aryNseRndB itB conB hitB hconB]
    exact deconvLayers_locality _ _ _ _ d hd he hw

/-- C1 witness: the amended claim applied to a concrete profile. -/
theorem claim_C1_witness :
    0 < ([[[(1 : ℚ), 1, 1, 1, 1]]] : List (List (List ℚ))).length ∧
    0 < ([[(1 : ℚ), 1, 1, 1, 1]] : List (List ℚ)).length ∧ 1 < 5 ∧
    (get3 (deconv_04 [[1, 1, 1, 1, 1]] [[[1, 1, 1, 1, 1]]]) 0 0 1 =
      get2 [[1, 1, 1, 1, 1]] 0 1 -
        ∑ s ∈ Finset.range 1,
          lstRat 1 s * get3 (deconv_04 [[1, 1, 1, 1, 1]] [[[1, 1, 1, 1, 1]]]) 0 0 s *
            get3 [[[1, 1, 1, 1, 1]]] 0 0 1
    ∧ ∀ (aryEmp5B : List (List ℚ)) (aryNseRndB : List (List (List ℚ)))
        (itB conB : ℕ), itB < aryNseRndB.length → conB < aryEmp5B.length →
        (∀ s : ℕ, s ≤ 1 → get2 aryEmp5B conB s = get2 [[1, 1, 1, 1, 1]] 0 s) →
        (∀ s : ℕ, s ≤ 1 → get3 aryNseRndB itB conB s = get3 [[[1, 1, 1, 1, 1]]] 0 0 s) →
        get3 (deconv_04 aryEmp5B aryNseRndB) itB conB 1 =
          get3 (deconv_04 [[1, 1, 1, 1, 1]] [[[1, 1, 1, 1, 1]]]) 0 0 1) :=
  ⟨by decide, by decide, by decide,
    claim_C1_deconv_backsubstitution [[1, 1, 1, 1, 1]] [[[1, 1, 1, 1, 1]]] 0 0 1
      (by decide) (by decide) (by decide)⟩

/-- C2: the corrected value at the deepest layer (layer VI, depth index 0)
equals the observed value there, for every iteration and condition; no
subtraction is applied at depth 0. -/
theorem claim_C2_layerVI_unchanged (aryEmp5 : List (List ℚ))
    (aryNseRnd : List (List (List ℚ))) (it con : ℕ)
    (hit : it < aryNseRnd.length) (hcon : con < aryEmp5.length) :
    get3 (deconv_04 aryEmp5 aryNseRnd) it con 0 = get2 aryEmp5 con 0 := by
  have h := deconv_04_recurrence aryEmp5 aryNseRnd it con 0 hit hcon (by omega)
  simpa using h

/-- C2 witness. -/
theorem claim_C2_witness :
    0 < ([[[(1 : ℚ), 1, 1, 1, 1]]] : List (List (List ℚ))).length ∧
    0 < ([[(3 : ℚ), 1, 4, 1, 5]] : List (List ℚ)).length ∧
    get3 (deconv_04 [[3, 1, 4, 1, 5]] [[[1, 1, 1, 1, 1]]]) 0 0 0 =
      get2 [[3, 1, 4, 1, 5]] 0 0 :=
  ⟨by decide, by decide,
    claim_C2_layerVI_unchanged [[3, 1, 4, 1, 5]] [[[1, 1, 1, 1, 1]]] 0 0
      (by decide) (by decide)⟩

/-- C3: with the noise array built as in drain_model_Huber2017.py (standard
normal draws times the configured SD, centred at one, hence mean 1 and the
configured SD), the model-4 output gains an iteration dimension whose size
equals the number of noise iterations supplied, each noise factor equals
1 + SD times the raw draw at (iteration, condition, depth), and every
subtraction term of the back-substitution is multiplied by the noise factor
of that iteration at the target depth. -/
theorem claim_C3_model4_noise (varNseRndSd : ℚ)
    (aryRndn : List (List (List ℚ))) (aryEmp5 : List (List ℚ)) (it con d : ℕ)
    (hit : it < aryRndn.length) (hcon : con < aryEmp5.length) (hd : d < 5)
    (hconN : con < (aryRndn.getD it []).length)
    (hdN : d < ((aryRndn.getD it []).getD con []).length) :
    (deconv_04 aryEmp5 (aryNseRnd varNseRndSd aryRndn)).length = aryRndn.length
    ∧ get3 (aryNseRnd varNseRndSd aryRndn) it con d =
        1 + varNseRndSd * get3 aryRndn it con d
    ∧ get3 (deconv_04 aryEmp5 (aryNseRnd varNseRndSd aryRndn)) it con d =
        get2 aryEmp5 con d -
          ∑ s ∈ Finset.range d,
            lstRat d s *
              get3 (deconv_04 aryEmp5 (aryNseRnd varNseRndSd aryRndn)) it con s *
              get3 (aryNseRnd varNseRndSd aryRndn) it con d := by
  refine ⟨by simp [deconv_04, aryNseRnd], ?_, ?_⟩
  · unfold get3 aryNseRnd
    rw [getD_map_lt _ aryRndn [] [] it hit]
    rw [getD_map_lt _ (aryRndn.getD it []) [] [] con hconN]
    rw [getD_map_lt _ ((aryRndn.getD it []).getD con []) 0 0 d hdN]
    ring
  · exact deconv_04_recurrence aryEmp5 (aryNseRnd varNseRndSd aryRndn) it con d
      (by simpa [aryNseRnd] using hit) hcon hd

/-- C3 witness. -/
theorem claim_C3_witness :
    0 < ([[[(0 : ℚ), 0, 0, 0, 0]]] : List (List (List ℚ))).length ∧
    0 < ([[(1 : ℚ), 1, 1, 1, 1]] : List (List ℚ)).length ∧ (1 : ℕ) < 5 ∧
    0 < (([[[(0 : ℚ), 0, 0, 0, 0]]] : List (List (List ℚ))).getD 0 []).length ∧
    1 < ((([[[(0 : ℚ), 0, 0, 0, 0]]] : List (List (List ℚ))).getD 0 []).getD 0 []).length ∧
    ((deconv_04 [[1, 1, 1, 1, 1]] (aryNseRnd 1 [[[0, 0, 0, 0, 0]]])).length =
        ([[[(0 : ℚ), 0, 0, 0, 0]]] : List (List (List ℚ))).length
    ∧ get3 (aryNseRnd 1 [[[0, 0, 0, 0, 0]]]) 0 0 1 =
        1 + 1 * get3 [[[0, 0, 0, 0, 0]]] 0 0 1
    ∧ get3 (deconv_04 [[1, 1, 1, 1, 1]] (aryNseRnd 1 [[[0, 0, 0, 0, 0]]])) 0 0 1 =
        get2 [[1, 1, 1, 1, 1]] 0 1 -
          ∑ s ∈ Finset.range 1,
            lstRat 1 s *
              get3 (deconv_04 [[1, 1, 1, 1, 1]] (aryNseRnd 1 [[[0, 0, 0, 0, 0]]])) 0 0 s *
              get3 (aryNseRnd 1 [[[0, 0, 0, 0, 0]]]) 0 0 1) :=
  ⟨by decide, by decide, by decide, by decide, by decide,
    claim_C3_model4_noise 1 [[[0, 0, 0, 0, 0]]] [[1, 1, 1, 1, 1]] 0 0 1
      (by decide) (by decide) (by decide) (by decide) (by decide)⟩

/-- C9: the model-4 output at the deepest layer (depth index 0) is identical
across iterations and does not depend on the noise array at all: for any two
noise arrays and any two iteration indices, the depth-0 output agrees. -/
theorem claim_C9_depth0_noise_free (aryEmp5 : List (List ℚ))
    (aryNseRndA aryNseRndB : List (List (List ℚ))) (itA itB con : ℕ)
    (hitA : itA < aryNseRndA.length) (hitB : itB < aryNseRndB.length)
    (hcon : con < aryEmp5.length) :
    get3 (deconv_04 aryEmp5 aryNseRndA) itA con 0 =
      get3 (deconv_04 aryEmp5 aryNseRndB) itB con 0 := by
  have hA := deconv_04_recurrence aryEmp5 aryNseRndA itA con 0 hitA hcon (by omega)
  have hB := deconv_04_recurrence aryEmp5 aryNseRndB itB con 0 hitB hcon (by omega)
  simp only [Finset.range_zero, Finset.sum_empty, sub_zero] at hA hB
  rw [hA, hB]

/-- C9 witness: two different noise arrays, different iteration indices. -/
theorem claim_C9_witness :
    0 < ([[[(1 : ℚ), 2, 3, 4, 5]]] : List (List (List ℚ))).length ∧
    1 < ([[[(9 : ℚ), 8, 7, 6, 5]], [[2, 4, 6, 8, 10]]] : List (List (List ℚ))).length ∧
    0 < ([[(3 : ℚ), 1, 4, 1, 5]] : List (List ℚ)).length ∧
    get3 (deconv_04 [[3, 1, 4, 1, 5]] [[[1, 2, 3, 4, 5]]]) 0 0 0 =
      get3 (deconv_04 [[3, 1, 4, 1, 5]] [[[9, 8, 7, 6, 5]], [[2, 4, 6, 8, 10]]]) 1 0 0 :=
  ⟨by decide, by decide, by decide,
    claim_C9_depth0_noise_free [[3, 1, 4, 1, 5]] [[[1, 2, 3, 4, 5]]]
      [[[9, 8, 7, 6, 5]], [[2, 4, 6, 8, 10]]] 0 1 0 (by decide) (by decide)
      (by decide)⟩

/- ------------------------------------------------------------------
py_depthsampling/drain_model/drain_model_Huber2017.py

np.linspace(start, stop, num, endpoint=True): num evenly spaced samples
from start to stop inclusive. -/
def np_linspace (start stop : ℚ) (num : ℕ) : List ℚ :=
  if num = 1 then [start]
  else (List.range num).map fun i : ℕ =>
    start + (i : ℚ) * (stop - start) / ((num : ℚ) - 1)

/- np.min of a one-dimensional array (0 for the empty array, which numpy
rejects; only applied to the nonempty layer-position vectors here). -/
def npMin (l : List ℚ) : ℚ :=
  match l with
  | [] => 0
  | x :: xs => xs.foldl min x

/- np.max of a one-dimensional array (same convention as npMin). -/
def npMax (l : List ℚ) : ℚ :=
  match l with
  | [] => 0
  | x :: xs => xs.foldl max x

/- Anatomical layer-centre positions, lines 280-297: for V1 the fixed
relative positions derived from the Markuerkiaga et al. (2016) layer
thicknesses; for V2 (extrastriate) the absolute depths of Weber et al.
(2008) divided by the total thickness of 1700 micrometres.  The source
script has no further branch (any other ROI string leaves the vector
undefined); the embedding returns [] there. -/
def vecPosMdl (strRoi : String) : List ℚ :=
  if strRoi = "v1" then [0.1, 0.25, 0.5, 0.8, 0.95]
  else if strRoi = "v2" then
    [160.0, 590.0, 1110.0, 1400.0, 1620.0].map fun x => x / 1700.0
  else []

/- Position of the empirical datapoints, lines 299-303: evenly spaced from
the lowest to the highest model layer position, varNumDpth points. -/
def vecPosEmp (strRoi : String) (varNumDpth : ℕ) : List ℚ :=
  np_linspace (npMin (vecPosMdl strRoi)) (npMax (vecPosMdl strRoi)) varNumDpth

/- Sampling points for equi-volume space used on the way back, lines
370-374: the same expression as vecPosEmp. -/
def vecIntpEqui (strRoi : String) (varNumDpth : ℕ) : List ℚ :=
  np_linspace (npMin (vecPosMdl strRoi)) (npMax (vecPosMdl strRoi)) varNumDpth

/- Interpolation method selector of scipy.interpolate.griddata. -/
inductive InterpMethod where
  | nearest : InterpMethod
  | linear : InterpMethod
  | cubic : InterpMethod

/- Arguments of one griddata call: source positions, source values, target
positions, method. -/
structure GriddataCall where
  points : List ℚ
  values : List ℚ
  xi : List ℚ
  method : InterpMethod

/- Forward (downsampling) interpolation call, lines 311-314: from the
equivolume grid onto the 5 anatomical layer positions, cubic. -/
def fwdGriddata (strRoi : String) (varNumDpth : ℕ) (values : List ℚ) :
    GriddataCall :=
  { points := vecPosEmp strRoi varNumDpth
    values := values
    xi := vecPosMdl strRoi
    method := .cubic }

/- Backward interpolation call, lines 382-387 (and the model-4/5/6
variants, lines 398-402, 411-422, 438-442, all built identically): from
the 5 anatomical layer positions back onto the equivolume grid, cubic. -/
def bwdGriddata (strRoi : String) (varNumDpth : ℕ) (values : List ℚ) :
    GriddataCall :=
  { points := vecPosMdl strRoi
    values := values
    xi := vecIntpEqui strRoi varNumDpth
    method := .cubic }

lemma np_linspace_getD (start stop : ℚ) (num i : ℕ) (h2 : 2 ≤ num)
    (hi : i < num) :
    (np_linspace start stop num).getD i 0 =
      start + i * (stop - start) / ((num : ℚ) - 1) := by
  unfold np_linspace
  rw [if_neg (by omega)]
  rw [getD_map_lt _ (List.range num) 0 0 i (by simpa using hi)]
  rw [range_getD_lt num i hi]

/-- C7: the forward resampling source grid and the backward resampling target
grid are the very same evenly spaced grid from the minimum to the maximum
anatomical layer position, and both directions use the identical cubic
interpolation method: the backward target equals the forward source, the grid
has varNumDpth points, starts at the minimum, ends at the maximum, and has
constant spacing (max - min)/(varNumDpth - 1). -/
theorem claim_C7_resampling_grids (strRoi : String) (varNumDpth : ℕ)
    (valuesF valuesB : List ℚ) (h2 : 2 ≤ varNumDpth) :
    (fwdGriddata strRoi varNumDpth valuesF).method = InterpMethod.cubic
    ∧ (bwdGriddata strRoi varNumDpth valuesB).method = InterpMethod.cubic
    ∧ (bwdGriddata strRoi varNumDpth valuesB).xi =
        (fwdGriddata strRoi varNumDpth valuesF).points
    ∧ (fwdGriddata strRoi varNumDpth valuesF).points.length = varNumDpth
    ∧ (fwdGriddata strRoi varNumDpth valuesF).points.getD 0 0 =
        npMin (vecPosMdl strRoi)
    ∧ (fwdGriddata strRoi varNumDpth valuesF).points.getD (varNumDpth - 1) 0 =
        npMax (vecPosMdl strRoi)
    ∧ ∀ i : ℕ, i + 1 < varNumDpth →
        (fwdGriddata strRoi varNumDpth valuesF).points.getD (i + 1) 0 -
          (fwdGriddata strRoi varNumDpth valuesF).points.getD i 0 =
        (npMax (vecPosMdl strRoi) - npMin (vecPosMdl strRoi)) /
          ((varNumDpth : ℚ) - 1) := by
  have hlen : ∀ v : List ℚ, (fwdGriddata strRoi varNumDpth v).points =
      np_linspace (npMin (vecPosMdl strRoi)) (npMax (vecPosMdl strRoi))
        varNumDpth := fun _ => rfl
  have hq : ((varNumDpth : ℚ) - 1) ≠ 0 := by
    have : (2 : ℚ) ≤ (varNumDpth : ℚ) := by exact_mod_cast h2
    intro hc
    rw [sub_eq_zero] at hc
    rw [hc] at this
    norm_num at this
  refine ⟨rfl, rfl, rfl, ?_, ?_, ?_, ?_⟩
  · rw [hlen]
    unfold np_linspace
    rw [if_neg (by omega)]
    simp
  · rw [hlen, np_linspace_getD _ _ _ _ h2 (by omega)]
    simp
  · rw [hlen, np_linspace_getD _ _ _ _ h2 (by omega)]
    have hcast : ((varNumDpth - 1 : ℕ) : ℚ) = (varNumDpth : ℚ) - 1 := by
      have : 1 ≤ varNumDpth := by omega
      push_cast [this]
      ring
    rw [hcast]
    field_simp
  · intro i hi
    rw [hlen, np_linspace_getD _ _ _ _ h2 hi,
      np_linspace_getD _ _ _ _ h2 (by omega)]
    push_cast
    field_simp
    ring

/-- C7 witness: the V1 region with a 2-point equivolume grid. -/
theorem claim_C7_witness :
    2 ≤ 2 ∧
    ((fwdGriddata "v1" 2 []).method = InterpMethod.cubic
    ∧ (bwdGriddata "v1" 2 []).method = InterpMethod.cubic
    ∧ (bwdGriddata "v1" 2 []).xi = (fwdGriddata "v1" 2 []).points
    ∧ (fwdGriddata "v1" 2 []).points.length = 2
    ∧ (fwdGriddata "v1" 2 []).points.getD 0 0 = npMin (vecPosMdl "v1")
    ∧ (fwdGriddata "v1" 2 []).points.getD (2 - 1) 0 = npMax (vecPosMdl "v1")
    ∧ ∀ i : ℕ, i + 1 < 2 →
        (fwdGriddata "v1" 2 []).points.getD (i + 1) 0 -
          (fwdGriddata "v1" 2 []).points.getD i 0 =
        (npMax (vecPosMdl "v1") - npMin (vecPosMdl "v1")) / ((2 : ℚ) - 1)) :=
  ⟨by decide, claim_C7_resampling_grids "v1" 2 [] [] (by decide)⟩

/-- C8: the anatomical layer-centre positions are the fixed vector
[0.10, 0.25, 0.50, 0.80, 0.95] for V1, and for extrastriate cortex the
alternate fixed vector of absolute depths [160, 590, 1110, 1400, 1620]
divided by the total thickness 1700; the choice is a function of the region
argument alone, and both the forward target and the backward source of the
resampling use exactly this vector. -/
theorem claim_C8_layer_positions :
    vecPosMdl "v1" = [0.1, 0.25, 0.5, 0.8, 0.95]
    ∧ vecPosMdl "v2" =
        [160 / 1700, 590 / 1700, 1110 / 1700, 1400 / 1700, 1620 / 1700]
    ∧ ∀ (strRoi : String) (varNumDpth : ℕ) (values : List ℚ),
        (fwdGriddata strRoi varNumDpth values).xi = vecPosMdl strRoi
        ∧ (bwdGriddata strRoi varNumDpth values).points = vecPosMdl strRoi := by
  refine ⟨rfl, ?_, fun _ _ _ => ⟨rfl, rfl⟩⟩
  rw [vecPosMdl, if_neg (by decide), if_pos rfl]
  norm_num

/- ------------------------------------------------------------------
py_depthsampling/permutation_peak.py line 137-146 calls peak_diff from
py_depthsampling/permutation/peak_pos_perm_diff.py, a module that is not
among the sources at hand; only its call site is. -/

/-- Modelled from the spec: the two-sided p-value computed by the missing
function peak_diff (py_depthsampling/permutation/peak_pos_perm_diff.py),
given the empirical peak-position difference and the list of permutation
peak-position differences: p = (1 + count of permutation statistics with
absolute value at least the absolute empirical statistic) divided by
(1 + total permutation count). -/
def peakDiffPValue (varEmpDiff : ℚ) (vecPermDiff : List ℚ) : ℚ :=
  (1 + ((vecPermDiff.filter fun x => |varEmpDiff| ≤ |x|).length : ℚ)) /
    (1 + (vecPermDiff.length : ℚ))

/-- C6: the two-sided p-value equals (1 + number of permutation statistics
with absolute value greater than or equal to the absolute empirical
statistic) / (1 + total permutation count), exactly, and is strictly
positive (never zero). -/
theorem claim_C6_permutation_pvalue (varEmpDiff : ℚ) (vecPermDiff : List ℚ) :
    peakDiffPValue varEmpDiff vecPermDiff =
      (1 + ((vecPermDiff.filter fun x => |varEmpDiff| ≤ |x|).length : ℚ)) /
        (1 + (vecPermDiff.length : ℚ))
    ∧ 0 < peakDiffPValue varEmpDiff vecPermDiff
    ∧ peakDiffPValue varEmpDiff vecPermDiff ≠ 0 := by
  have hpos : 0 < peakDiffPValue varEmpDiff vecPermDiff := by
    unfold peakDiffPValue
    positivity
  exact ⟨rfl, hpos, ne_of_gt hpos⟩

/- ------------------------------------------------------------------
py_depthsampling/boot/boot_plot.py

np.median of a one-dimensional array: mean of the two middle order
statistics for even length, middle order statistic for odd length. -/
def npMedian (l : List ℚ) : ℚ :=
  let s := l.mergeSort fun a b => a ≤ b
  if l.length % 2 = 1 then s.getD (l.length / 2) 0
  else (s.getD (l.length / 2 - 1) 0 + s.getD (l.length / 2) 0) / 2

/- np.percentile of a one-dimensional array with the default linear
interpolation: virtual index h = q/100 * (n-1) into the sorted values,
result interpolated between the neighbouring order statistics. -/
def npPercentile (l : List ℚ) (q : ℚ) : ℚ :=
  let s := l.mergeSort fun a b => a ≤ b
  let h := q / 100 * ((l.length : ℚ) - 1)
  let i := (⌊h⌋).toNat
  s.getD i 0 + (h - (⌊h⌋ : ℚ)) * (s.getD (i + 1) 0 - s.getD i 0)

/- Failure kinds raised by the numpy layer inside boot_plot:
valueError covers np.random.randint with a negative size or low >= high
and the np.percentile check that percentiles lie in [0, 100];
indexError is np.percentile applied along an empty axis. -/
inductive NpError where
  | valueError : NpError
  | indexError : NpError

/- What boot_plot hands to the plotting routine (lines 158-162): the
empirical median profile and the lower/upper percentile bound profiles,
each indexed [condition][depth]. -/
structure BootResult where
  aryEmpMed : List (List ℚ)
  aryCnfLw : List (List ℚ)
  aryCnfUp : List (List ℚ)

/- aryRnd (lines 114-119): varNumIt rows of varNumSmp subject indices;
the random draws themselves enter as the function rnd. -/
def aryRndOf (rnd : ℕ → ℕ → ℕ) (varNumIt varNumSmp : ℕ) : List (List ℕ) :=
  (List.range varNumIt).map fun idxIt =>
    (List.range varNumSmp).map fun idxSmp => rnd idxIt idxSmp

/- aryBoo (lines 121-133): row idxIt holds the subject profiles selected
by the idxIt-th index vector.  The sample size varNumSmp is varNumSub =
aryDpth.length, mirroring line 112. -/
def aryBooOf (aryDpth : List (List (List ℚ))) (rnd : ℕ → ℕ → ℕ)
    (varNumIt : ℕ) : List (List (List (List ℚ))) :=
  (aryRndOf rnd varNumIt aryDpth.length).map fun vecRnd =>
    vecRnd.map fun idxSub => aryDpth.getD idxSub []

/- aryBooMed (line 137): np.median across axis 1 (the resampled subject
axis), giving one [condition][depth] profile per iteration. -/
def aryBooMedOf (aryDpth : List (List (List ℚ))) (rnd : ℕ → ℕ → ℕ)
    (varNumIt : ℕ) : List (List (List ℚ)) :=
  (aryBooOf aryDpth rnd varNumIt).map fun smp =>
    (List.range (aryDpth.getD 0 []).length).map fun idxCon =>
      (List.range ((aryDpth.getD 0 []).getD 0 []).length).map fun idxDpth =>
        npMedian (smp.map fun aryTmp => get2 aryTmp idxCon idxDpth)

/- aryPrct (line 143): np.percentile across axis 0 (the iteration axis),
independently per condition and depth, for one percentile q. -/
def aryPrctOf (aryDpth : List (List (List ℚ))) (rnd : ℕ → ℕ → ℕ)
    (varNumIt : ℕ) (q : ℚ) : List (List ℚ) :=
  (List.range (aryDpth.getD 0 []).length).map fun idxCon =>
    (List.range ((aryDpth.getD 0 []).getD 0 []).length).map fun idxDpth =>
      npPercentile
        ((aryBooMedOf aryDpth rnd varNumIt).map fun med => get2 med idxCon idxDpth) q

/- aryEmpMed (line 156): np.median across the full, non-resampled subject
axis. -/
def aryEmpMedOf (aryDpth : List (List (List ℚ))) : List (List ℚ) :=
  (List.range (aryDpth.getD 0 []).length).map fun idxCon =>
    (List.range ((aryDpth.getD 0 []).getD 0 []).length).map fun idxDpth =>
      npMedian (aryDpth.map fun aryTmp => get2 aryTmp idxCon idxDpth)

/- boot_plot, numpy-array branch (lines 103-162).  The function performs
no explicit parameter validation; failures are those of the numpy layer:
np.random.randint raises ValueError for a negative size (varNumIt < 0)
or for low >= high (no subjects); np.percentile first checks that all
requested percentiles lie in [0, 100] (ValueError) and then rejects an
empty axis (IndexError, the case varNumIt = 0).  Under valid parameters
the call succeeds and hands the empirical median and the two percentile
profiles to the plotting routine. -/
def boot_plot (aryDpth : List (List (List ℚ))) (rnd : ℕ → ℕ → ℕ)
    (varNumIt : ℤ) (varConLw varConUp : ℚ) : Except NpError BootResult :=
  if varNumIt < 0 then Except.error NpError.valueError
  else if aryDpth.length = 0 then Except.error NpError.valueError
  else if 0 ≤ varConLw ∧ varConLw ≤ 100 ∧ 0 ≤ varConUp ∧ varConUp ≤ 100 then
    if (aryBooMedOf aryDpth rnd varNumIt.toNat).length = 0 then
      Except.error NpError.indexError
    else
      Except.ok
        { aryEmpMed := aryEmpMedOf aryDpth
          aryCnfLw := aryPrctOf aryDpth rnd varNumIt.toNat varConLw
          aryCnfUp := aryPrctOf aryDpth rnd varNumIt.toNat varConUp }
  else Except.error NpError.valueError

/- Spec-side reading of the bootstrap, for the refinement proof: one
profile per iteration, the statistic (median) taken across the resampled
subject axis, with sample size equal to the subject count. -/
def bootIterationProfile (aryDpth : List (List (List ℚ))) (rnd : ℕ → ℕ → ℕ)
    (idxIt idxCon idxDpth : ℕ) : ℚ :=
  npMedian ((List.range aryDpth.length).map fun idxSmp =>
    get3 aryDpth (rnd idxIt idxSmp) idxCon idxDpth)

/- Spec-side reading: the percentile bound at one condition and depth is
the percentile, across the iteration axis, of the per-iteration
profiles. -/
def bootPercentileBound (aryDpth : List (List (List ℚ))) (rnd : ℕ → ℕ → ℕ)
    (varNumIt : ℕ) (q : ℚ) (idxCon idxDpth : ℕ) : ℚ :=
  npPercentile
    ((List.range varNumIt).map fun idxIt =>
      bootIterationProfile aryDpth rnd idxIt idxCon idxDpth) q

/- Spec-side reading: the empirical point estimate is the statistic over
the full, non-resampled subject set. -/
def bootEmpiricalEstimate (aryDpth : List (List (List ℚ)))
    (idxCon idxDpth : ℕ) : ℚ :=
  npMedian (aryDpth.map fun aryTmp => get2 aryTmp idxCon idxDpth)

lemma aryBooMedOf_length (aryDpth : List (List (List ℚ)))
    (rnd : ℕ → ℕ → ℕ) (varNumIt : ℕ) :
    (aryBooMedOf aryDpth rnd varNumIt).length = varNumIt := by
  simp [aryBooMedOf, aryBooOf, aryRndOf]

lemma aryBooMedOf_proj (aryDpth : List (List (List ℚ))) (rnd : ℕ → ℕ → ℕ)
    (varNumIt con dpth : ℕ) (hCon : con < (aryDpth.getD 0 []).length)
    (hDpth : dpth < ((aryDpth.getD 0 []).getD 0 []).length) :
    (aryBooMedOf aryDpth rnd varNumIt).map (fun med => get2 med con dpth) =
      (List.range varNumIt).map fun idxIt =>
        bootIterationProfile aryDpth rnd idxIt con dpth := by
  unfold aryBooMedOf aryBooOf aryRndOf bootIterationProfile
  simp only [List.map_map]
  refine List.map_congr_left fun idxIt _ => ?_
  simp only [Function.comp]
  unfold get2
  rw [getD_map_lt _ (List.range (aryDpth.getD 0 []).length) 0 [] con
    (by simpa using hCon)]
  rw [range_getD_lt _ _ hCon]
  rw [getD_map_lt _ (List.range ((aryDpth.getD 0 []).getD 0 []).length) 0 0 dpth
    (by simpa using hDpth)]
  rw [range_getD_lt _ _ hDpth]
  simp only [List.map_map]
  rfl

/-- C4: under valid parameters, boot_plot succeeds and its result refines the
claimed algorithm: the index matrix has one row per iteration with sample
size equal to the original subject count (drawing with replacement); the
returned lower and upper bounds at each condition and depth equal the
configured percentiles, across the iteration axis, of the per-iteration
median across the resampled subject axis; and the returned point estimate is
the median over the full, non-resampled subject set. -/
theorem claim_C4_bootstrap_refines (aryDpth : List (List (List ℚ)))
    (rnd : ℕ → ℕ → ℕ) (varNumIt : ℤ) (varConLw varConUp : ℚ) (con dpth : ℕ)
    (hIt : 0 < varNumIt) (hLw1 : 0 ≤ varConLw) (hLw2 : varConLw ≤ 100)
    (hUp1 : 0 ≤ varConUp) (hUp2 : varConUp ≤ 100)
    (hSub : 0 < aryDpth.length) (hCon : con < (aryDpth.getD 0 []).length)
    (hDpth : dpth < ((aryDpth.getD 0 []).getD 0 []).length) :
    ∃ r : BootResult,
      boot_plot aryDpth rnd varNumIt varConLw varConUp = Except.ok r
      ∧ (aryRndOf rnd varNumIt.toNat aryDpth.length).length = varNumIt.toNat
      ∧ (∀ row ∈ aryRndOf rnd varNumIt.toNat aryDpth.length,
          row.length = aryDpth.length)
      ∧ get2 r.aryCnfLw con dpth =
          bootPercentileBound aryDpth rnd varNumIt.toNat varConLw con dpth
      ∧ get2 r.aryCnfUp con dpth =
          bootPercentileBound aryDpth rnd varNumIt.toNat varConUp con dpth
      ∧ get2 r.aryEmpMed con dpth = bootEmpiricalEstimate aryDpth con dpth := by
  have hOk : boot_plot aryDpth rnd varNumIt varConLw varConUp =
      Except.ok
        { aryEmpMed := aryEmpMedOf aryDpth
          aryCnfLw := aryPrctOf aryDpth rnd varNumIt.toNat varConLw
          aryCnfUp := aryPrctOf aryDpth rnd varNumIt.toNat varConUp } := by
    unfold boot_plot
    rw [if_neg (by omega), if_neg (by omega),
      if_pos ⟨hLw1, hLw2, hUp1, hUp2⟩,
      if_neg (by rw [aryBooMedOf_length]; omega)]
  have hPrct : ∀ q : ℚ, get2 (aryPrctOf aryDpth rnd varNumIt.toNat q) con dpth =
      bootPercentileBound aryDpth rnd varNumIt.toNat q con dpth := by
    intro q
    unfold aryPrctOf bootPercentileBound get2
    rw [getD_map_lt _ (List.range (aryDpth.getD 0 []).length) 0 [] con
      (by simpa using hCon)]
    rw [range_getD_lt _ _ hCon]
    rw [getD_map_lt _ (List.range ((aryDpth.getD 0 []).getD 0 []).length) 0 0 dpth
      (by simpa using hDpth)]
    rw [range_getD_lt _ _ hDpth]
    rw [show (fun med => (med.getD con []).getD dpth 0) =
      (fun med => get2 med con dpth) from rfl]
    rw [aryBooMedOf_proj aryDpth rnd varNumIt.toNat con dpth hCon hDpth]
  refine ⟨_, hOk, by simp [aryRndOf], ?_, hPrct varConLw, hPrct varConUp, ?_⟩
  · intro row hrow
    unfold aryRndOf at hrow
    rw [List.mem_map] at hrow
    obtain ⟨i, _, hrw⟩ := hrow
    rw [← hrw]
    simp
  · unfold aryEmpMedOf bootEmpiricalEstimate get2
    rw [getD_map_lt _ (List.range (aryDpth.getD 0 []).length) 0 [] con
      (by simpa using hCon)]
    rw [range_getD_lt _ _ hCon]
    rw [getD_map_lt _ (List.range ((aryDpth.getD 0 []).getD 0 []).length) 0 0 dpth
      (by simpa using hDpth)]
    rw [range_getD_lt _ _ hDpth]

/-- C4 witness: two subjects, one condition, two depth levels, one
iteration, bounds 0 and 100. -/
theorem claim_C4_witness :
    ((0 : ℤ) < 1 ∧ (0 : ℚ) ≤ 0 ∧ (0 : ℚ) ≤ 100 ∧ (0 : ℚ) ≤ 100 ∧ (100 : ℚ) ≤ 100
      ∧ 0 < ([[[(1 : ℚ), 2]], [[3, 4]]] : List (List (List ℚ))).length
      ∧ 0 < (([[[(1 : ℚ), 2]], [[3, 4]]] : List (List (List ℚ))).getD 0 []).length
      ∧ 1 < ((([[[(1 : ℚ), 2]], [[3, 4]]] : List (List (List ℚ))).getD 0 []).getD 0 []).length)
    ∧ ∃ r : BootResult,
        boot_plot [[[1, 2]], [[3, 4]]] (fun _ _ => 0) 1 0 100 = Except.ok r
        ∧ (aryRndOf (fun _ _ => 0) (1 : ℤ).toNat
            ([[[(1 : ℚ), 2]], [[3, 4]]] : List (List (List ℚ))).length).length = (1 : ℤ).toNat
        ∧ (∀ row ∈ aryRndOf (fun _ _ => 0) (1 : ℤ).toNat
            ([[[(1 : ℚ), 2]], [[3, 4]]] : List (List (List ℚ))).length,
            row.length = ([[[(1 : ℚ), 2]], [[3, 4]]] : List (List (List ℚ))).length)
        ∧ get2 r.aryCnfLw 0 1 =
            bootPercentileBound [[[1, 2]], [[3, 4]]] (fun _ _ => 0) (1 : ℤ).toNat 0 0 1
        ∧ get2 r.aryCnfUp 0 1 =
            bootPercentileBound [[[1, 2]], [[3, 4]]] (fun _ _ => 0) (1 : ℤ).toNat 100 0 1
        ∧ get2 r.aryEmpMed 0 1 = bootEmpiricalEstimate [[[1, 2]], [[3, 4]]] 0 1 :=
  ⟨⟨by decide, le_refl 0, by simp, by simp, le_refl 100, by decide, by decide,
      by decide⟩,
    claim_C4_bootstrap_refines [[[1, 2]], [[3, 4]]] (fun _ _ => 0) 1 0 100 0 1
      (by decide) (le_refl 0) (by simp) (by simp) (le_refl 100) (by decide)
      (by decide) (by decide)⟩

/-- C5: given at least one subject, boot_plot fails exactly when a requested
percentile bound lies outside [0, 100] or the iteration count is at most
zero, and succeeds otherwise.  The failures are the parameter rejections of
the numpy layer (ValueError for out-of-range percentiles and negative
iteration counts, IndexError for the empty iteration axis when the count is
zero), which the specification groups as InvalidParameter. -/
theorem claim_C5_invalid_parameters (aryDpth : List (List (List ℚ)))
    (rnd : ℕ → ℕ → ℕ) (varNumIt : ℤ) (varConLw varConUp : ℚ)
    (hSub : 0 < aryDpth.length) :
    (boot_plot aryDpth rnd varNumIt varConLw varConUp).isOk = true ↔
      (0 < varNumIt ∧ 0 ≤ varConLw ∧ varConLw ≤ 100 ∧ 0 ≤ varConUp
        ∧ varConUp ≤ 100) := by
  unfold boot_plot
  have hmed := aryBooMedOf_length aryDpth rnd varNumIt.toNat
  split_ifs with h1 h2 h3 h4
  · exact iff_of_false Bool.false_ne_true fun hc => absurd hc.1 (by omega)
  · omega
  · rw [hmed] at h4
    exact iff_of_false Bool.false_ne_true fun hc => absurd hc.1 (by omega)
  · rw [hmed] at h4
    exact iff_of_true rfl ⟨by omega, h3.1, h3.2.1, h3.2.2.1, h3.2.2.2⟩
  · exact iff_of_false Bool.false_ne_true
      fun hc => h3 ⟨hc.2.1, hc.2.2.1, hc.2.2.2.1, hc.2.2.2.2⟩

/-- C5 witness: one subject, valid parameters on the right side of the
equivalence. -/
theorem claim_C5_witness :
    0 < ([[[(1 : ℚ)]]] : List (List (List ℚ))).length ∧
    ((boot_plot [[[1]]] (fun _ _ => 0) 7 (5 / 2) (195 / 2)).isOk = true ↔
      ((0 : ℤ) < 7 ∧ (0 : ℚ) ≤ 5 / 2 ∧ (5 / 2 : ℚ) ≤ 100 ∧ (0 : ℚ) ≤ 195 / 2
        ∧ (195 / 2 : ℚ) ≤ 100)) :=
  ⟨by decide,
    claim_C5_invalid_parameters [[[1]]] (fun _ _ => 0) 7 (5 / 2) (195 / 2)
      (by decide)⟩

/- ------------------------------------------------------------------
ds_slctVrtcs.py

Setting entries of the inclusion vector to True at the ROI vertex
indices (lines 79-80); numpy fancy assignment, one index at a time. -/
def setTrueAt (vec : List Bool) (idxs : List ℕ) : List Bool :=
  idxs.foldl (fun v i => v.set i true) vec

/- np.mean across the depth axis of one vertex row (line 102/161). -/
def npRowMean (row : List ℚ) : ℚ := row.sum / (row.length : ℚ)

/- np.min across the depth axis of one vertex row (line 131). -/
def npRowMin (row : List ℚ) : ℚ :=
  match row with
  | [] => 0
  | x :: xs => xs.foldl min x

/- Criterion 1 (lines 66-88): when enabled, the inclusion vector is
re-initialised to all-False and set True at the ROI indices; when
disabled, the initial all-True vector stands. -/
def slct01 (varOrigNumVtkVrtc : ℕ) (lgcSlct01 : Bool) (vecRoiIdx : List ℕ) :
    List Bool :=
  if lgcSlct01 then
    setTrueAt (List.replicate varOrigNumVtkVrtc false) vecRoiIdx
  else List.replicate varOrigNumVtkVrtc true

/- Criterion 2 (lines 96-117): mean across depth levels above threshold,
combined with the current inclusion vector by np.logical_and. -/
def slct02 (vecInc : List Bool) (lgcSlct02 : Bool) (arySlct02 : List (List ℚ))
    (varThrSlct02 : ℚ) : List Bool :=
  if lgcSlct02 then
    List.zipWith (fun a b => a && b) vecInc
      (arySlct02.map fun row => decide (varThrSlct02 < npRowMean row))
  else vecInc

/- Criterion 3 (lines 125-146): minimum across depth levels above
threshold, combined by np.logical_and. -/
def slct03 (vecInc : List Bool) (lgcSlct03 : Bool) (arySlct03 : List (List ℚ))
    (varThrSlct03 : ℚ) : List Bool :=
  if lgcSlct03 then
    List.zipWith (fun a b => a && b) vecInc
      (arySlct03.map fun row => decide (varThrSlct03 < npRowMin row))
  else vecInc

/- Criterion 4 (lines 154-177): mean across depth levels BELOW threshold
(np.less in the source), combined by np.logical_and. -/
def slct04 (vecInc : List Bool) (lgcSlct04 : Bool) (arySlct04 : List (List ℚ))
    (varThrSlct04 : ℚ) : List Bool :=
  if lgcSlct04 then
    List.zipWith (fun a b => a && b) vecInc
      (arySlct04.map fun row => decide (npRowMean row < varThrSlct04))
  else vecInc

/- Boolean-mask row selection aryTmp[vecInc, :] (line 193). -/
def applyMask (vecInc : List Bool) (aryTmp : List (List ℚ)) :
    List (List ℚ) :=
  (List.filter (fun p => p.1) (vecInc.zip aryTmp)).map fun p => p.2

/- funcSlctVrtcs (ds_slctVrtcs.py): applies the four optional criteria in
order, recomputes varNumInc = np.sum(vecInc) after each applied
criterion (np.sum over the initial all-True vector when none is
applied), filters the first varNumCon data arrays by the final inclusion
vector, and returns (data list, vertex count, inclusion vector). -/
def funcSlctVrtcs (varNumCon : ℕ) (lstDpthData01 : List (List (List ℚ)))
    (lgcSlct01 : Bool) (vecRoiIdx : List ℕ)
    (lgcSlct02 : Bool) (arySlct02 : List (List ℚ)) (varThrSlct02 : ℚ)
    (lgcSlct03 : Bool) (arySlct03 : List (List ℚ)) (varThrSlct03 : ℚ)
    (lgcSlct04 : Bool) (arySlct04 : List (List ℚ)) (varThrSlct04 : ℚ) :
    List (List (List ℚ)) × ℕ × List Bool :=
  let varOrigNumVtkVrtc := (lstDpthData01.getD 0 []).length
  let v1 := slct01 varOrigNumVtkVrtc lgcSlct01 vecRoiIdx
  let v2 := slct02 v1 lgcSlct02 arySlct02 varThrSlct02
  let v3 := slct03 v2 lgcSlct03 arySlct03 varThrSlct03
  let v4 := slct04 v3 lgcSlct04 arySlct04 varThrSlct04
  let varNumInc :=
    if lgcSlct04 then v4.count true
    else if lgcSlct03 then v3.count true
    else if lgcSlct02 then v2.count true
    else if lgcSlct01 then v1.count true
    else varOrigNumVtkVrtc
  let lstOut := (List.range lstDpthData01.length).map fun idxIn =>
    if idxIn < varNumCon then applyMask v4 (lstDpthData01.getD idxIn [])
    else lstDpthData01.getD idxIn []
  (lstOut, varNumInc, v4)

lemma count_zipWith_and_le (a b : List Bool) :
    (List.zipWith (fun x y => x && y) a b).count true ≤ a.count true := by
  induction a generalizing b with
  | nil => simp
  | cons x xs ih =>
    cases b with
    | nil => simp
    | cons y ys =>
      have h := ih ys
      cases x <;> cases y <;> simp [List.count_cons] <;> omega

lemma setTrueAt_length (idxs : List ℕ) (vec : List Bool) :
    (setTrueAt vec idxs).length = vec.length := by
  induction idxs generalizing vec with
  | nil => rfl
  | cons i is ih =>
    show (setTrueAt (vec.set i true) is).length = vec.length
    rw [ih (vec.set i true)]
    simp

lemma slct01_length (varOrigNumVtkVrtc : ℕ) (lgcSlct01 : Bool)
    (vecRoiIdx : List ℕ) :
    (slct01 varOrigNumVtkVrtc lgcSlct01 vecRoiIdx).length = varOrigNumVtkVrtc := by
  unfold slct01
  split
  · rw [setTrueAt_length]
    simp
  · simp

lemma filter_fst_zip_length (vecInc : List Bool) (ary : List (List ℚ))
    (h : vecInc.length ≤ ary.length) :
    (List.filter (fun p => p.1) (vecInc.zip ary)).length = vecInc.count true := by
  induction vecInc generalizing ary with
  | nil => simp
  | cons b bs ih =>
    cases ary with
    | nil => simp at h
    | cons r rs =>
      have hb := ih rs (by simpa using h)
      cases b <;> simp [List.count_cons, List.filter_cons, hb]

lemma applyMask_length (vecInc : List Bool) (ary : List (List ℚ))
    (h : vecInc.length ≤ ary.length) :
    (applyMask vecInc ary).length = vecInc.count true := by
  unfold applyMask
  rw [List.length_map, filter_fst_zip_length vecInc ary h]

/-- C10: in funcSlctVrtcs, each criterion after the first combines with the
current inclusion vector by logical AND, so the count of included vertices
never increases along the stages (and the first stage cannot exceed the
original vertex count); the returned count equals the number of True entries
of the returned inclusion vector; and each of the varNumCon returned data
arrays has exactly that many rows. -/
theorem claim_C10_vertex_selection (varNumCon : ℕ)
    (lstDpthData01 : List (List (List ℚ)))
    (lgcSlct01 : Bool) (vecRoiIdx : List ℕ)
    (lgcSlct02 : Bool) (arySlct02 : List (List ℚ)) (varThrSlct02 : ℚ)
    (lgcSlct03 : Bool) (arySlct03 : List (List ℚ)) (varThrSlct03 : ℚ)
    (lgcSlct04 : Bool) (arySlct04 : List (List ℚ)) (varThrSlct04 : ℚ)
    (hCon : varNumCon = lstDpthData01.length)
    (hShape : ∀ ary ∈ lstDpthData01,
      ary.length = (lstDpthData01.getD 0 []).length)
    (h02 : lgcSlct02 = true →
      arySlct02.length = (lstDpthData01.getD 0 []).length)
    (h03 : lgcSlct03 = true →
      arySlct03.length = (lstDpthData01.getD 0 []).length)
    (h04 : lgcSlct04 = true →
      arySlct04.length = (lstDpthData01.getD 0 []).length) :
    (slct01 (lstDpthData01.getD 0 []).length lgcSlct01 vecRoiIdx).count true ≤
        (lstDpthData01.getD 0 []).length
    ∧ (slct02 (slct01 (lstDpthData01.getD 0 []).length lgcSlct01 vecRoiIdx)
        lgcSlct02 arySlct02 varThrSlct02).count true ≤
        (slct01 (lstDpthData01.getD 0 []).length lgcSlct01 vecRoiIdx).count true
    ∧ (slct03 (slct02 (slct01 (lstDpthData01.getD 0 []).length lgcSlct01 vecRoiIdx)
        lgcSlct02 arySlct02 varThrSlct02) lgcSlct03 arySlct03 varThrSlct03).count true ≤
        (slct02 (slct01 (lstDpthData01.getD 0 []).length lgcSlct01 vecRoiIdx)
          lgcSlct02 arySlct02 varThrSlct02).count true
    ∧ (slct04 (slct03 (slct02 (slct01 (lstDpthData01.getD 0 []).length lgcSlct01 vecRoiIdx)
        lgcSlct02 arySlct02 varThrSlct02) lgcSlct03 arySlct03 varThrSlct03)
        lgcSlct04 arySlct04 varThrSlct04).count true ≤
        (slct03 (slct02 (slct01 (lstDpthData01.getD 0 []).length lgcSlct01 vecRoiIdx)
          lgcSlct02 arySlct02 varThrSlct02) lgcSlct03 arySlct03 varThrSlct03).count true
    ∧ (funcSlctVrtcs varNumCon lstDpthData01 lgcSlct01 vecRoiIdx
        lgcSlct02 arySlct02 varThrSlct02 lgcSlct03 arySlct03 varThrSlct03
        lgcSlct04 arySlct04 varThrSlct04).2.1 =
        (funcSlctVrtcs varNumCon lstDpthData01 lgcSlct01 vecRoiIdx
          lgcSlct02 arySlct02 varThrSlct02 lgcSlct03 arySlct03 varThrSlct03
          lgcSlct04 arySlct04 varThrSlct04).2.2.count true
    ∧ ∀ idxIn : ℕ, idxIn < varNumCon →
        ((funcSlctVrtcs varNumCon lstDpthData01 lgcSlct01 vecRoiIdx
          lgcSlct02 arySlct02 varThrSlct02 lgcSlct03 arySlct03 varThrSlct03
          lgcSlct04 arySlct04 varThrSlct04).1.getD idxIn []).length =
        (funcSlctVrtcs varNumCon lstDpthData01 lgcSlct01 vecRoiIdx
          lgcSlct02 arySlct02 varThrSlct02 lgcSlct03 arySlct03 varThrSlct03
          lgcSlct04 arySlct04 varThrSlct04).2.1 := by
  have hv1len : (slct01 (lstDpthData01.getD 0 []).length lgcSlct01 vecRoiIdx).length =
      (lstDpthData01.getD 0 []).length := slct01_length _ _ _
  have hv2len : (slct02 (slct01 (lstDpthData01.getD 0 []).length lgcSlct01 vecRoiIdx)
      lgcSlct02 arySlct02 varThrSlct02).length = (lstDpthData01.getD 0 []).length := by
    unfold slct02
    split
    · rename_i h
      rw [List.length_zipWith, List.length_map, hv1len, h02 h, min_self]
    · exact hv1len
  have hv3len : (slct03 (slct02 (slct01 (lstDpthData01.getD 0 []).length lgcSlct01 vecRoiIdx)
      lgcSlct02 arySlct02 varThrSlct02) lgcSlct03 arySlct03 varThrSlct03).length =
      (lstDpthData01.getD 0 []).length := by
    unfold slct03
    split
    · rename_i h
      rw [List.length_zipWith, List.length_map, hv2len, h03 h, min_self]
    · exact hv2len
  have hv4len : (slct04 (slct03 (slct02 (slct01 (lstDpthData01.getD 0 []).length lgcSlct01 vecRoiIdx)
      lgcSlct02 arySlct02 varThrSlct02) lgcSlct03 arySlct03 varThrSlct03)
      lgcSlct04 arySlct04 varThrSlct04).length = (lstDpthData01.getD 0 []).length := by
    unfold slct04
    split
    · rename_i h
      rw [List.length_zipWith, List.length_map, hv3len, h04 h, min_self]
    · exact hv3len
  have hcount : (funcSlctVrtcs varNumCon lstDpthData01 lgcSlct01 vecRoiIdx
      lgcSlct02 arySlct02 varThrSlct02 lgcSlct03 arySlct03 varThrSlct03
      lgcSlct04 arySlct04 varThrSlct04).2.1 =
      (funcSlctVrtcs varNumCon lstDpthData01 lgcSlct01 vecRoiIdx
        lgcSlct02 arySlct02 varThrSlct02 lgcSlct03 arySlct03 varThrSlct03
        lgcSlct04 arySlct04 varThrSlct04).2.2.count true := by
    unfold funcSlctVrtcs
    cases lgcSlct04 <;> cases lgcSlct03 <;> cases lgcSlct02 <;> cases lgcSlct01 <;>
      simp [slct01, slct02, slct03, slct04, List.count_replicate_self]
  refine ⟨?_, ?_, ?_, ?_, hcount, ?_⟩
  · calc (slct01 (lstDpthData01.getD 0 []).length lgcSlct01 vecRoiIdx).count true ≤
        (slct01 (lstDpthData01.getD 0 []).length lgcSlct01 vecRoiIdx).length :=
          List.count_le_length _ _
      _ = (lstDpthData01.getD 0 []).length := hv1len
  · unfold slct02
    split
    · exact count_zipWith_and_le _ _
    · exact le_refl _
  · unfold slct03
    split
    · exact count_zipWith_and_le _ _
    · exact le_refl _
  · unfold slct04
    split
    · exact count_zipWith_and_le _ _
    · exact le_refl _
  · intro idxIn hIdx
    rw [hcount]
    show ((funcSlctVrtcs varNumCon lstDpthData01 lgcSlct01 vecRoiIdx
      lgcSlct02 arySlct02 varThrSlct02 lgcSlct03 arySlct03 varThrSlct03
      lgcSlct04 arySlct04 varThrSlct04).1.getD idxIn []).length = _
    unfold funcSlctVrtcs
    have hIdx2 : idxIn < lstDpthData01.length := by omega
    rw [getD_map_lt _ (List.range lstDpthData01.length) 0 [] idxIn
      (by simpa using hIdx2)]
    rw [range_getD_lt _ _ hIdx2]
    rw [if_pos hIdx]
    have hmem : lstDpthData01.getD idxIn [] ∈ lstDpthData01 := by
      rw [List.getD_eq_getElem _ _ hIdx2]
      exact List.getElem_mem hIdx2
    rw [applyMask_length _ _ (by rw [hv4len, hShape _ hmem])]

/-- C10 witness: one condition with one vertex and all criteria disabled. -/
theorem claim_C10_witness :
    (1 = ([[[(2 : ℚ)]]] : List (List (List ℚ))).length
      ∧ (∀ ary ∈ ([[[(2 : ℚ)]]] : List (List (List ℚ))),
          ary.length = (([[[(2 : ℚ)]]] : List (List (List ℚ))).getD 0 []).length)
      ∧ (false = true → ([] : List (List ℚ)).length =
          (([[[(2 : ℚ)]]] : List (List (List ℚ))).getD 0 []).length))
    ∧ ((slct01 (([[[(2 : ℚ)]]] : List (List (List ℚ))).getD 0 []).length false []).count true ≤
        (([[[(2 : ℚ)]]] : List (List (List ℚ))).getD 0 []).length
    ∧ (slct02 (slct01 (([[[(2 : ℚ)]]] : List (List (List ℚ))).getD 0 []).length false [])
        false [] 0).count true ≤
        (slct01 (([[[(2 : ℚ)]]] : List (List (List ℚ))).getD 0 []).length false []).count true
    ∧ (slct03 (slct02 (slct01 (([[[(2 : ℚ)]]] : List (List (List ℚ))).getD 0 []).length false [])
        false [] 0) false [] 0).count true ≤
        (slct02 (slct01 (([[[(2 : ℚ)]]] : List (List (List ℚ))).getD 0 []).length false [])
          false [] 0).count true
    ∧ (slct04 (slct03 (slct02 (slct01 (([[[(2 : ℚ)]]] : List (List (List ℚ))).getD 0 []).length false [])
        false [] 0) false [] 0) false [] 0).count true ≤
        (slct03 (slct02 (slct01 (([[[(2 : ℚ)]]] : List (List (List ℚ))).getD 0 []).length false [])
          false [] 0) false [] 0).count true
    ∧ (funcSlctVrtcs 1 [[[2]]] false [] false [] 0 false [] 0 false [] 0).2.1 =
        (funcSlctVrtcs 1 [[[2]]] false [] false [] 0 false [] 0 false [] 0).2.2.count true
    ∧ ∀ idxIn : ℕ, idxIn < 1 →
        ((funcSlctVrtcs 1 [[[2]]] false [] false [] 0 false [] 0 false [] 0).1.getD idxIn []).length =
        (funcSlctVrtcs 1 [[[2]]] false [] false [] 0 false [] 0 false [] 0).2.1) :=
  ⟨⟨by decide, by simp, by simp⟩,
    claim_C10_vertex_selection 1 [[[2]]] false [] false [] 0 false [] 0 false [] 0
      (by decide) (by simp) (by simp) (by simp) (by simp)⟩
